import Mathlib

/-!
Shallow embedding of `src/server.py` (COI-NEXT-backend).

The file models:
* the process-wide mutable state (`user_response` list, `conversation_state`
  dict with `current_index` and `responses`) as an explicit `GlobalState`;
* the question loader `load_questions` over an optional file content
  (`none` models `FileNotFoundError`);
* the three callable functions `appRAG`, `store_user_response`,
  `get_next_question`;
* the websocket dispatch loop `websocket_endpoint` as a step function
  `processFrame` over parsed frames plus a `runConn` fold, with the
  per-connection `questions` / `current_index` as `ConnState`;
* the two HTTP relay endpoints `realtime_proxy` and `transcription_proxy`
  over an upstream oracle, recording the list of upstream calls made.

Modelling conventions:
* Python ints that are provably non-negative in the source
  (`current_index`, both process-wide and per-connection) are `Nat`;
  `max(current_index - 1, 0)` is exactly `Nat` subtraction by 1.
* A websocket text frame is either `Frame.malformed` (`json.loads` raises,
  or the parsed value is not an object so `.get` raises) or a parsed
  message `RawMsg` holding the fields the dispatcher reads, each optional
  because `dict.get` returns `None` when absent.
* The `arguments` value of a function call is `none` when the `arguments`
  key is absent (then `json.loads(None)` raises `TypeError`),
  `ArgParse.bad` when the string does not parse as JSON, and
  `ArgParse.fields` for a parsed JSON object; field values are modelled as
  strings, which covers every schema of the source (all declared fields
  are `constr` strings).
* Pydantic validation error text is abstracted to `field ++ ": " ++ reason`;
  the source wraps it as `"Invalid arguments for <name>: <error>"`, which
  mentions the offending field name.
* The upstream API is an oracle `Upstream` giving the credential-mint
  response, the parsed `client_secret.value` field of its JSON body
  (`none` = body is not JSON so `.json()` raises; `some none` = field
  absent), and the SDP-exchange response.  Network-level exceptions of
  `httpx` are outside the oracle.
-/

/-- An element of `conversation_state["responses"]`:
the dict `{"index": idx, "text": text}` appended by `store_user_response`. -/
structure AnswerRecord where
  index : Nat
  text : String
deriving DecidableEq, Repr

/-- The process-wide mutable state of `server.py`: the contents of
`question_list.txt` (`none` when the file is missing), the module-level
`user_response` list, and `conversation_state` (`current_index`,
`responses`). -/
structure GlobalState where
  questionFile : Option (List String)
  user_response : List String
  conv_index : Nat
  conv_responses : List AnswerRecord
deriving DecidableEq, Repr

/-- Python `str.strip()`: drop leading and trailing whitespace characters.
Defined structurally over the character list so that it evaluates. -/
def pyStrip (s : String) : String :=
  String.mk
    (((s.data.dropWhile Char.isWhitespace).reverse.dropWhile
        Char.isWhitespace).reverse)

/-- `load_questions`: read the file, keep the stripped non-empty lines
(`if line.strip()` keeps exactly the lines whose stripped form is
non-empty); a missing file yields `[]`. -/
def load_questions (file : Option (List String)) : List String :=
  match file with
  | none => []
  | some lines => (lines.map pyStrip).filter (fun l => l != "")

/-- `appRAG`: placeholder lookup, always the same fixed string. -/
def appRAG (search_query : String) : String :=
  "営業時間は午前9時から午後10時までです。"

/-- The dict returned by `store_user_response`. -/
structure StoreResult where
  status : String
  question_index : Nat
deriving DecidableEq, Repr

/-- `store_user_response`: `idx = max(current_index - 1, 0)` (which is `Nat`
subtraction here), append `{"index": idx, "text": text}` to
`conversation_state["responses"]`, return `{"status": "stored",
"question_index": idx}`. -/
def store_user_response (gs : GlobalState) (text : String) :
    GlobalState × StoreResult :=
  let idx := gs.conv_index - 1
  ({ gs with conv_responses := gs.conv_responses ++ [⟨idx, text⟩] },
   ⟨"stored", idx⟩)

/-- Result of `get_next_question`: either `{"index": i, "text": q}` or the
terminal `{"type": "end", "message": ...}` dict. -/
inductive NextResult where
  | question (index : Nat) (text : String)
  | endMarker (message : String)
deriving DecidableEq, Repr

/-- The fixed end-of-questions message of `server.py`. -/
def endMessage : String := "すべての質問が終了しました"

/-- `get_next_question`: reload the question file, serve
`questions[current_index]` and advance the process-wide cursor while
questions remain, otherwise return the terminal end marker. -/
def get_next_question (gs : GlobalState) : GlobalState × NextResult :=
  let questions := load_questions gs.questionFile
  let i := gs.conv_index
  if h : i < questions.length then
    ({ gs with conv_index := i + 1 }, .question i (questions.get ⟨i, h⟩))
  else
    (gs, .endMarker endMessage)

/-- A pydantic validation failure for one field, abstracting the error
rendering: the text always names the offending field. -/
structure FieldErr where
  field : String
  reason : String
deriving DecidableEq, Repr

/-- Rendered validation error text: names the field, then the reason. -/
def fieldErrText (e : FieldErr) : String := e.field ++ ": " ++ e.reason

/-- Validation of one required `constr(max_length := limit)` field, as the
pydantic schemas `AppRagArgs` / `StoreUserResponseArgs` do. -/
def maxLenCheck (field : String) (limit : Nat) (v : Option String) :
    Except FieldErr String :=
  match v with
  | none => .error ⟨field, "field required"⟩
  | some s =>
    if s.length ≤ limit then .ok s
    else .error ⟨field, "ensure this value has at most "
        ++ toString limit ++ " characters"⟩

/-- Lookup of a key in a parsed JSON object (field list). -/
def lookupField (fl : List (String × String)) (k : String) : Option String :=
  (fl.find? (fun p => p.1 == k)).map Prod.snd

/-- Result payload of a successful function call, as sent in the
`"result"` slot of the success reply. -/
inductive FnResult where
  | ragAnswer (answer : String)
  | stored (r : StoreResult)
  | nextQ (r : NextResult)
deriving DecidableEq, Repr

/-- Keys of `AVAILABLE_FUNCTIONS` / `FUNCTION_SCHEMAS`. -/
def knownFunctionNames : List String :=
  ["appRAG", "store_user_response", "get_next_question"]

/-- Validate-then-invoke for a known function name: mirrors
`schema(**arguments)` followed by `function_to_call(**validated_args.dict())`.
Only called under the `function_name in AVAILABLE_FUNCTIONS` guard, so the
final branch is exactly `get_next_question` (whose schema has no fields;
extra fields are ignored by pydantic). -/
def runFunction (gs : GlobalState) (name : String)
    (fl : List (String × String)) : Except FieldErr (GlobalState × FnResult) :=
  if name == "appRAG" then
    (maxLenCheck "search_query" 200 (lookupField fl "search_query")).map
      (fun q => (gs, .ragAnswer (appRAG q)))
  else if name == "store_user_response" then
    (maxLenCheck "text" 1000 (lookupField fl "text")).map
      (fun t =>
        let out := store_user_response gs t
        (out.1, .stored out.2))
  else
    let out := get_next_question gs
    .ok (out.1, .nextQ out.2)

/-- Outcome of `json.loads(arguments_str)` on the `arguments` value:
`bad` when parsing raises, `fields` for a parsed JSON object
(string-valued fields, which covers every declared schema field). -/
inductive ArgParse where
  | bad
  | fields (fl : List (String × String))
deriving DecidableEq, Repr

/-- A websocket frame that parsed as a JSON object: the fields the
dispatcher reads via `data.get(...)`, each `none` when absent. -/
structure RawMsg where
  type? : Option String
  call_id? : Option String
  name? : Option String
  arguments? : Option ArgParse
  text? : Option String
  index? : Option Int
deriving DecidableEq, Repr

/-- One inbound websocket text frame. `malformed` stands for a frame on
which `json.loads` raises (or whose parsed value is not an object, so that
`data.get` raises); the exception escapes the per-frame branches and is
caught only by the handler around the whole receive loop. -/
inductive Frame where
  | malformed
  | parsed (m : RawMsg)
deriving DecidableEq, Repr

/-- One outbound reply frame, by JSON shape:
`success`/`callError` carry `"status"`, `questionMsg`/`endMsg`/`typeError`
carry `"type"`. -/
inductive Reply where
  | success (call_id : Option String) (result : FnResult)
  | callError (call_id : Option String) (message : String)
  | questionMsg (index : Nat) (text : String)
  | endMsg (message : String)
  | typeError (message : String)
deriving DecidableEq, Repr

/-- Rendering of an optional string inside a Python f-string:
a missing key prints as `None`. -/
def optRepr : Option String → String
  | none => "None"
  | some s => s

/-- The `function_call` branch of the dispatcher: look the name up, parse
the `arguments` string, validate against the schema, invoke the handler;
every failure is answered with a per-call error reply. -/
def funcCallStep (gs : GlobalState) (m : RawMsg) : GlobalState × Reply :=
  let cid := m.call_id?
  match m.name? with
  | some name =>
    if knownFunctionNames.contains name then
      match m.arguments? with
      | some (.fields fl) =>
        match runFunction gs name fl with
        | .ok (gs', res) => (gs', .success cid res)
        | .error e =>
          (gs, .callError cid
            ("Invalid arguments for " ++ name ++ ": " ++ fieldErrText e))
      | _ =>
        -- json.loads raised on the arguments value (absent key or
        -- malformed string): caught by the per-call `except Exception`
        (gs, .callError cid
          ("Function execution failed for " ++ name ++ ": bad arguments"))
    else
      (gs, .callError cid ("Unknown function requested: " ++ name))
  | none =>
    (gs, .callError cid "Unknown function requested: None")

/-- Per-connection state of `websocket_endpoint`: the question list loaded
at accept time and the connection-local cursor. -/
structure ConnState where
  questions : List String
  current_index : Nat
deriving DecidableEq, Repr

/-- Effect of handling one frame: the new states, the reply sent on the
channel (if any), and whether the receive loop continues (`keepOpen`). -/
structure StepOut where
  gs : GlobalState
  cs : ConnState
  reply : Option Reply
  keepOpen : Bool
deriving DecidableEq, Repr

/-- Whether a `type` value is one of the three dispatched message kinds. -/
def msgKindKnown (t : Option String) : Bool :=
  t == some "function_call" || t == some "next_question"
    || t == some "user_response"

/-- One iteration of the `while True` receive loop of
`websocket_endpoint`.  A malformed frame raises out of the per-frame
branches; the surrounding `except Exception` ends the loop, so no reply is
sent and the channel closes.  The `user_response` branch appends only the
bare text to the module-level `user_response` list (the computed index is
used for logging only) and sends nothing. -/
def processFrame (gs : GlobalState) (cs : ConnState) : Frame → StepOut
  | .malformed => ⟨gs, cs, none, false⟩
  | .parsed m =>
    if m.type? == some "function_call" then
      let out := funcCallStep gs m
      ⟨out.1, cs, some out.2, true⟩
    else if m.type? == some "next_question" then
      if h : cs.current_index < cs.questions.length then
        ⟨gs, { cs with current_index := cs.current_index + 1 },
          some (.questionMsg cs.current_index
            (cs.questions.get ⟨cs.current_index, h⟩)), true⟩
      else
        ⟨gs, cs, some (.endMsg endMessage), true⟩
    else if m.type? == some "user_response" then
      ⟨{ gs with user_response := gs.user_response ++ [m.text?.getD ""] },
        cs, none, true⟩
    else
      ⟨gs, cs,
        some (.typeError ("Unknown message type: " ++ optRepr m.type?)), true⟩

/-- Run the receive loop over a list of inbound frames, collecting the
replies in order; the loop stops early when a frame ends it. -/
def runConn : List Frame → GlobalState → ConnState →
    GlobalState × ConnState × List Reply
  | [], gs, cs => (gs, cs, [])
  | f :: rest, gs, cs =>
    let out := processFrame gs cs f
    if out.keepOpen then
      let r := runConn rest out.gs out.cs
      (r.1, r.2.1, out.reply.toList ++ r.2.2)
    else
      (out.gs, out.cs, out.reply.toList)

/-- An upstream HTTP response: status code and body text. -/
structure HttpResponse where
  status : Nat
  text : String
deriving DecidableEq, Repr

/-- Oracle for the two upstream calls of a relay request.  `mintKey?`
is the result of `resp.json().get("client_secret", {}).get("value")`:
`none` means `.json()` raises (body not JSON), `some none` means the
nested field is absent, `some (some k)` means the value `k` was found. -/
structure Upstream where
  mintResp : HttpResponse
  mintKey? : Option (Option String)
  sdpResp : HttpResponse
deriving DecidableEq, Repr

/-- `httpx` success check: `raise_for_status` raises on any non-2xx. -/
def is2xx (status : Nat) : Bool := 200 ≤ status && status < 300

/-- The upstream calls a relay request can issue, in issue order. -/
inductive UpCall where
  | mintCall
  | sdpCall
deriving DecidableEq, Repr

/-- Client-visible outcome of a relay request: the plain-text SDP answer,
or an `HTTPException` with a status and detail. -/
inductive ProxyResult where
  | answer (body : String)
  | httpError (status : Nat) (detail : String)
deriving DecidableEq, Repr

/-- Fixed generic 500 detail of `/api/realtime-proxy`. -/
def realtimeGenericError : String := "Error in /api/realtime-proxy"

/-- Fixed generic 500 detail of `/api/transcription-proxy`. -/
def transcriptionGenericError : String := "Error in /api/transcription-proxy"

/-- Shared shape of both relay endpoints: mint a credential, then relay
the SDP offer.  `raise_for_status` failures propagate the upstream status
and body; every other failure — body not JSON, credential field absent or
empty (falsy in the `if not ephemeral_key` check), including the
internally raised missing-credential `HTTPException`, which the outer
`except Exception` re-wraps — surfaces as the endpoint's fixed generic
500.  The second component records the upstream calls issued, in order. -/
def proxyFlow (genericDetail : String) (up : Upstream) (offerSdp : String) :
    ProxyResult × List UpCall :=
  if !(is2xx up.mintResp.status) then
    (.httpError up.mintResp.status up.mintResp.text, [.mintCall])
  else
    match up.mintKey? with
    | none => (.httpError 500 genericDetail, [.mintCall])
    | some none => (.httpError 500 genericDetail, [.mintCall])
    | some (some key) =>
      if key == "" then
        (.httpError 500 genericDetail, [.mintCall])
      else
        if !(is2xx up.sdpResp.status) then
          (.httpError up.sdpResp.status up.sdpResp.text, [.mintCall, .sdpCall])
        else
          (.answer up.sdpResp.text, [.mintCall, .sdpCall])

/-- `POST /api/realtime-proxy`. -/
def realtime_proxy (up : Upstream) (offerSdp : String) :
    ProxyResult × List UpCall :=
  proxyFlow realtimeGenericError up offerSdp

/-- `POST /api/transcription-proxy`. -/
def transcription_proxy (up : Upstream) (offerSdp : String) :
    ProxyResult × List UpCall :=
  proxyFlow transcriptionGenericError up offerSdp

/-- State after `k` successive calls of `get_next_question`. -/
def iterNext (gs : GlobalState) : Nat → GlobalState
  | 0 => gs
  | k + 1 => (get_next_question (iterNext gs k)).1

/-- Result of the `(k+1)`-th call of `get_next_question` (0-based `k`). -/
def nthNextResult (gs : GlobalState) (k : Nat) : NextResult :=
  (get_next_question (iterNext gs k)).2

/-- A mutation of the process-wide conversation state: a question advance
or an answer store. -/
inductive ConvOp where
  | advance
  | storeAnswer (text : String)
deriving DecidableEq, Repr

/-- Apply one conversation-state operation, keeping only the state. -/
def applyOp (gs : GlobalState) : ConvOp → GlobalState
  | .advance => (get_next_question gs).1
  | .storeAnswer t => (store_user_response gs t).1

/-- Apply a sequence of conversation-state operations in order. -/
def applyOps : List ConvOp → GlobalState → GlobalState
  | [], gs => gs
  | op :: rest, gs => applyOps rest (applyOp gs op)

/-! Helper lemmas about the conversation state machine. -/

/-- Advancing the question cursor never touches the question file. -/
theorem get_next_question_file (gs : GlobalState) :
    (get_next_question gs).1.questionFile = gs.questionFile := by
  simp only [get_next_question]
  split <;> rfl

/-- Advancing the question cursor never touches the recorded answers. -/
theorem get_next_question_responses (gs : GlobalState) :
    (get_next_question gs).1.conv_responses = gs.conv_responses := by
  simp only [get_next_question]
  split <;> rfl

/-- New cursor after one `get_next_question` call. -/
theorem get_next_question_index (gs : GlobalState) :
    (get_next_question gs).1.conv_index =
      if gs.conv_index < (load_questions gs.questionFile).length then
        gs.conv_index + 1
      else gs.conv_index := by
  simp only [get_next_question]
  by_cases hc : gs.conv_index < (load_questions gs.questionFile).length
  · rw [dif_pos hc, if_pos hc]
  · rw [dif_neg hc, if_neg hc]

/-- Once the cursor has reached the question count, `get_next_question`
returns the terminal end marker. -/
theorem get_next_question_end (gs : GlobalState)
    (h : (load_questions gs.questionFile).length ≤ gs.conv_index) :
    (get_next_question gs).2 = .endMarker endMessage := by
  simp only [get_next_question]
  rw [dif_neg (by omega)]

/-- Iterated advances never touch the question file. -/
theorem iterNext_file (gs : GlobalState) (k : Nat) :
    (iterNext gs k).questionFile = gs.questionFile := by
  induction k with
  | zero => rfl
  | succ k ih => rw [iterNext, get_next_question_file, ih]

/-- Starting from cursor 0, after `k` advances the cursor is
`min k N` where `N` is the question count. -/
theorem iterNext_index (gs : GlobalState) (h : gs.conv_index = 0) (k : Nat) :
    (iterNext gs k).conv_index =
      min k (load_questions gs.questionFile).length := by
  induction k with
  | zero => simp [iterNext, h]
  | succ k ih =>
    rw [iterNext, get_next_question_index, iterNext_file, ih]
    rcases Nat.lt_or_ge (min k (load_questions gs.questionFile).length)
        (load_questions gs.questionFile).length with hlt | hge
    · rw [if_pos hlt]; omega
    · rw [if_neg (by omega)]; omega

/-- Storing an answer never touches the question file. -/
theorem store_user_response_file (gs : GlobalState) (t : String) :
    (store_user_response gs t).1.questionFile = gs.questionFile := rfl

/-- Storing an answer never touches the cursor. -/
theorem store_user_response_index (gs : GlobalState) (t : String) :
    (store_user_response gs t).1.conv_index = gs.conv_index := rfl

/-- Conversation-state operations never touch the question file. -/
theorem applyOp_file (gs : GlobalState) (op : ConvOp) :
    (applyOp gs op).questionFile = gs.questionFile := by
  cases op with
  | advance => exact get_next_question_file gs
  | storeAnswer t => rfl

/-- One conversation-state operation keeps the cursor within the
question count. -/
theorem applyOp_index_le (gs : GlobalState) (op : ConvOp)
    (h : gs.conv_index ≤ (load_questions gs.questionFile).length) :
    (applyOp gs op).conv_index ≤ (load_questions gs.questionFile).length := by
  cases op with
  | advance =>
    show (get_next_question gs).1.conv_index ≤ _
    rw [get_next_question_index]
    split <;> omega
  | storeAnswer t => exact h

/-- Sequences of conversation-state operations never touch the
question file. -/
theorem applyOps_file (ops : List ConvOp) (gs : GlobalState) :
    (applyOps ops gs).questionFile = gs.questionFile := by
  induction ops generalizing gs with
  | nil => rfl
  | cons op rest ih => rw [applyOps, ih, applyOp_file]

/-- Any sequence of conversation-state operations keeps the cursor within
the question count. -/
theorem applyOps_index_le (ops : List ConvOp) (gs : GlobalState)
    (h : gs.conv_index ≤ (load_questions gs.questionFile).length) :
    (applyOps ops gs).conv_index ≤ (load_questions gs.questionFile).length := by
  induction ops generalizing gs with
  | nil => exact h
  | cons op rest ih =>
    rw [applyOps]
    have h1 := applyOp_index_le gs op h
    have h2 := ih (applyOp gs op) (by rw [applyOp_file]; exact h1)
    rwa [applyOp_file] at h2

/-! Helper lemmas about the relay flow. -/

/-- Every relay request issues the mint call, then at most the SDP call:
the call trace is `[mintCall]` or `[mintCall, sdpCall]`. -/
theorem proxyFlow_calls (g : String) (up : Upstream) (offer : String) :
    (proxyFlow g up offer).2 = [.mintCall] ∨
      (proxyFlow g up offer).2 = [.mintCall, .sdpCall] := by
  unfold proxyFlow
  split
  · exact Or.inl rfl
  · split
    · exact Or.inl rfl
    · exact Or.inl rfl
    · split
      · exact Or.inl rfl
      · split
        · exact Or.inr rfl
        · exact Or.inr rfl

/-- A relay request that returns the SDP answer has issued exactly the
mint call followed by the SDP call. -/
theorem proxyFlow_answer_calls (g : String) (up : Upstream) (offer : String)
    (b : String) (h : (proxyFlow g up offer).1 = .answer b) :
    (proxyFlow g up offer).2 = [.mintCall, .sdpCall] := by
  unfold proxyFlow at h ⊢
  by_cases h1 : (!is2xx up.mintResp.status) = true
  · rw [if_pos h1] at h; simp at h
  · rw [if_neg h1] at h ⊢
    cases hk : up.mintKey? with
    | none => rw [hk] at h; simp at h
    | some o =>
      cases o with
      | none => rw [hk] at h; simp at h
      | some key =>
        rw [hk] at h
        by_cases h2 : (key == "") = true
        · simp [h2] at h
        · by_cases h3 : (!is2xx up.sdpResp.status) = true
          · simp [h2, h3]
          · simp [h2, h3]

/-- Result of one `get_next_question` call, stated with `getD` to avoid a
dependent index proof. -/
theorem get_next_question_result (gs : GlobalState) :
    (get_next_question gs).2 =
      if gs.conv_index < (load_questions gs.questionFile).length then
        .question gs.conv_index
          ((load_questions gs.questionFile).getD gs.conv_index "")
      else .endMarker endMessage := by
  simp only [get_next_question]
  by_cases hc : gs.conv_index < (load_questions gs.questionFile).length
  · rw [dif_pos hc, if_pos hc, List.getD_eq_getElem _ _ hc]
    rfl
  · rw [dif_neg hc, if_neg hc]

/-- C4 (confirmed): with a fixed question file whose loaded list has `N`
entries and the process-wide cursor starting at 0, the `(k+1)`-th call of
`get_next_question` returns question `k` together with its index for every
`k < N` (each question exactly once, in file order), and the terminal end
marker for the `(N+1)`-th call and every call thereafter. -/
theorem c4_get_next_question_enumerates_then_ends (gs : GlobalState)
    (h0 : gs.conv_index = 0) (k : Nat) :
    (k < (load_questions gs.questionFile).length →
      nthNextResult gs k =
        .question k ((load_questions gs.questionFile).getD k "")) ∧
    ((load_questions gs.questionFile).length ≤ k →
      nthNextResult gs k = .endMarker endMessage) := by
  unfold nthNextResult
  rw [get_next_question_result, iterNext_file, iterNext_index gs h0 k]
  constructor
  · intro hk
    rw [Nat.min_eq_left (Nat.le_of_lt hk), if_pos hk]
  · intro hk
    rw [Nat.min_eq_right hk, if_neg (lt_irrefl _)]

/-- Witness for C4 on the concrete two-question file
`["Q1", "Q2"]`: the first call serves question 0, the third call (and the
fourth) returns the end marker. -/
theorem c4_witness :
    nthNextResult ⟨some ["Q1", "Q2"], [], 0, []⟩ 0 = .question 0 "Q1" ∧
    nthNextResult ⟨some ["Q1", "Q2"], [], 0, []⟩ 1 = .question 1 "Q2" ∧
    nthNextResult ⟨some ["Q1", "Q2"], [], 0, []⟩ 2 = .endMarker endMessage ∧
    nthNextResult ⟨some ["Q1", "Q2"], [], 0, []⟩ 3 = .endMarker endMessage := by
  refine ⟨?_, ?_, ?_, ?_⟩
  · exact ((c4_get_next_question_enumerates_then_ends _ rfl 0).1
      (by decide)).trans (by decide)
  · exact ((c4_get_next_question_enumerates_then_ends _ rfl 1).1
      (by decide)).trans (by decide)
  · exact (c4_get_next_question_enumerates_then_ends _ rfl 2).2 (by decide)
  · exact (c4_get_next_question_enumerates_then_ends _ rfl 3).2 (by decide)

/-- C7 (confirmed): for a fixed question file, the process-wide cursor
never exceeds the number of loaded questions under any sequence of
advance and answer-store operations, and once the cursor equals the
question count a further advance returns the terminal end response
(the operations are total, so no error is raised). -/
theorem c7_cursor_bounded_and_terminal (gs : GlobalState) (ops : List ConvOp)
    (h : gs.conv_index ≤ (load_questions gs.questionFile).length) :
    (applyOps ops gs).conv_index ≤ (load_questions gs.questionFile).length ∧
    ((applyOps ops gs).conv_index = (load_questions gs.questionFile).length →
      (get_next_question (applyOps ops gs)).2 = .endMarker endMessage) := by
  refine ⟨applyOps_index_le ops gs h, fun he => ?_⟩
  exact get_next_question_end _ (by rw [applyOps_file]; omega)

/-- Witness for C7 on the one-question file `["Q1"]` under the sequence
advance, store, advance: the cursor stays at the question count and the
next advance returns the end marker. -/
theorem c7_witness :
    (applyOps [.advance, .storeAnswer "a", .advance]
        ⟨some ["Q1"], [], 0, []⟩).conv_index ≤
      (load_questions (some ["Q1"])).length ∧
    (get_next_question (applyOps [.advance, .storeAnswer "a", .advance]
        ⟨some ["Q1"], [], 0, []⟩)).2 = .endMarker endMessage := by
  have h := c7_cursor_bounded_and_terminal ⟨some ["Q1"], [], 0, []⟩
    [.advance, .storeAnswer "a", .advance] (by decide)
  exact ⟨h.1, h.2 (by decide)⟩

/-- C9 (confirmed): `store_user_response` is total for every text and
every cursor value; it records and returns
`question_index = max(cursor - 1, 0)`, so a call made before any question
has been served (cursor 0) stores index 0 rather than -1 or an error. -/
theorem c9_store_index_is_clamped_cursor (gs : GlobalState) (t : String) :
    ((store_user_response gs t).2.question_index : Int) =
      max ((gs.conv_index : Int) - 1) 0 ∧
    (store_user_response gs t).2.status = "stored" ∧
    (store_user_response gs t).1.conv_responses =
      gs.conv_responses ++ [⟨(store_user_response gs t).2.question_index, t⟩] ∧
    (gs.conv_index = 0 → (store_user_response gs t).2.question_index = 0) := by
  refine ⟨?_, rfl, rfl, fun h => ?_⟩
  · show ((gs.conv_index - 1 : Nat) : Int) = max ((gs.conv_index : Int) - 1) 0
    omega
  · show gs.conv_index - 1 = 0
    omega

/-- Witness for C9 at cursor 0: the very first stored answer gets
question index 0. -/
theorem c9_witness :
    (store_user_response ⟨none, [], 0, []⟩ "hi").2.question_index = 0 :=
  (c9_store_index_is_clamped_cursor ⟨none, [], 0, []⟩ "hi").2.2.2 rfl

/-- C10 (confirmed): the `user_response` message kind appends only to the
module-level `user_response` list and leaves the conversation state (both
the cursor and the `{index, text}` answer log), the question file, and the
per-connection state unchanged; `store_user_response` appends only to the
conversation `{index, text}` log and leaves the `user_response` list, the
cursor, and the question file unchanged. -/
theorem c10_disjoint_stores_frame (gs : GlobalState) (cs : ConnState)
    (cid nm : Option String) (ap : Option ArgParse) (textOpt : Option String)
    (idxOpt : Option Int) (t : String) :
    ((processFrame gs cs
        (.parsed ⟨some "user_response", cid, nm, ap, textOpt, idxOpt⟩)).gs.user_response =
        gs.user_response ++ [textOpt.getD ""] ∧
      (processFrame gs cs
        (.parsed ⟨some "user_response", cid, nm, ap, textOpt, idxOpt⟩)).gs.conv_index =
        gs.conv_index ∧
      (processFrame gs cs
        (.parsed ⟨some "user_response", cid, nm, ap, textOpt, idxOpt⟩)).gs.conv_responses =
        gs.conv_responses ∧
      (processFrame gs cs
        (.parsed ⟨some "user_response", cid, nm, ap, textOpt, idxOpt⟩)).gs.questionFile =
        gs.questionFile ∧
      (processFrame gs cs
        (.parsed ⟨some "user_response", cid, nm, ap, textOpt, idxOpt⟩)).cs = cs) ∧
    ((store_user_response gs t).1.conv_responses =
        gs.conv_responses ++ [⟨gs.conv_index - 1, t⟩] ∧
      (store_user_response gs t).1.user_response = gs.user_response ∧
      (store_user_response gs t).1.conv_index = gs.conv_index ∧
      (store_user_response gs t).1.questionFile = gs.questionFile) :=
  ⟨⟨rfl, rfl, rfl, rfl, rfl⟩, ⟨rfl, rfl, rfl, rfl⟩⟩

/-- C2 counterexample: handling the `user_response` message
`{"type": "user_response", "text": "hello"}` on a fresh connection appends
the bare string `"hello"` to the module-level `user_response` list and
leaves the `{index, text}` answer log (`conversation_state["responses"]`)
empty — no `{index, text}` record is appended anywhere, refuting the
claim that the handler appends the text together with an index to the
process-wide answer log of `{index, text}` records. -/
theorem c2_counterexample :
    (processFrame ⟨some ["Q1"], [], 0, []⟩ ⟨["Q1"], 0⟩
        (.parsed ⟨some "user_response", none, none, none, some "hello", none⟩)).gs.conv_responses
      = [] ∧
    ¬ ((processFrame ⟨some ["Q1"], [], 0, []⟩ ⟨["Q1"], 0⟩
        (.parsed ⟨some "user_response", none, none, none, some "hello", none⟩)).gs.conv_responses
      = [⟨0, "hello"⟩]) ∧
    (processFrame ⟨some ["Q1"], [], 0, []⟩ ⟨["Q1"], 0⟩
        (.parsed ⟨some "user_response", none, none, none, some "hello", none⟩)).gs.user_response
      = ["hello"] ∧
    (processFrame ⟨some ["Q1"], [], 0, []⟩ ⟨["Q1"], 0⟩
        (.parsed ⟨some "user_response", none, none, none, some "hello", none⟩)).reply
      = none := by
  refine ⟨rfl, by decide, rfl, rfl⟩

/-- C2 (corrected): for every `user_response` message received on the
channel, the handler appends only the supplied free text — a bare string,
with no index attached — to the process-wide `user_response` list; the
`{index, text}` answer log (`conversation_state["responses"]`) and the
cursors are untouched (the index defaulting to cursor minus one is
computed only for the server log), and no acknowledgment is sent. -/
theorem c2_user_response_appends_bare_text (gs : GlobalState)
    (cs : ConnState) (cid nm : Option String) (ap : Option ArgParse)
    (textOpt : Option String) (idxOpt : Option Int) :
    processFrame gs cs
        (.parsed ⟨some "user_response", cid, nm, ap, textOpt, idxOpt⟩) =
      ⟨{ gs with user_response := gs.user_response ++ [textOpt.getD ""] },
        cs, none, true⟩ :=
  rfl

/-- C1 counterexample: a malformed-JSON frame on a fresh channel gets no
per-frame error reply and ends the receive loop (the exception escapes to
the handler around the loop, closing the channel), and a subsequent valid
`next_question` frame on the same channel is not processed: the run of
the two frames produces no reply at all and the per-connection cursor
never advances.  This refutes the claim for the malformed-JSON half. -/
theorem c1_counterexample :
    processFrame ⟨some ["Q1"], [], 0, []⟩ ⟨["Q1"], 0⟩ Frame.malformed =
      ⟨⟨some ["Q1"], [], 0, []⟩, ⟨["Q1"], 0⟩, none, false⟩ ∧
    (runConn [Frame.malformed,
        .parsed ⟨some "next_question", none, none, none, none, none⟩]
      ⟨some ["Q1"], [], 0, []⟩ ⟨["Q1"], 0⟩).2.2 = [] ∧
    (runConn [Frame.malformed,
        .parsed ⟨some "next_question", none, none, none, none, none⟩]
      ⟨some ["Q1"], [], 0, []⟩ ⟨["Q1"], 0⟩).2.1.current_index = 0 :=
  ⟨rfl, rfl, rfl⟩

/-- C1 (corrected): a frame that parses to a message with an unknown kind
gets a per-frame error reply naming the kind and the channel stays open —
the remaining frames are processed exactly as before, so a subsequent
valid frame is still handled; a malformed-JSON frame, by contrast, raises
out of the dispatch loop: the loop ends with no per-frame reply and the
remaining frames are never processed. -/
theorem c1_unknown_kind_replies_malformed_closes (gs : GlobalState)
    (cs : ConnState) (m : RawMsg) (rest rest2 : List Frame)
    (h : msgKindKnown m.type? = false) :
    processFrame gs cs (.parsed m) =
      ⟨gs, cs,
        some (.typeError ("Unknown message type: " ++ optRepr m.type?)),
        true⟩ ∧
    runConn (.parsed m :: rest) gs cs =
      ((runConn rest gs cs).1, (runConn rest gs cs).2.1,
        .typeError ("Unknown message type: " ++ optRepr m.type?)
          :: (runConn rest gs cs).2.2) ∧
    processFrame gs cs .malformed = ⟨gs, cs, none, false⟩ ∧
    runConn (Frame.malformed :: rest2) gs cs = (gs, cs, []) := by
  simp only [msgKindKnown, Bool.or_eq_false_iff, beq_eq_false_iff_ne] at h
  obtain ⟨⟨h1, h2⟩, h3⟩ := h
  have hstep : processFrame gs cs (.parsed m) =
      ⟨gs, cs,
        some (.typeError ("Unknown message type: " ++ optRepr m.type?)),
        true⟩ := by
    simp only [processFrame, beq_eq_false_iff_ne.mpr h1,
      beq_eq_false_iff_ne.mpr h2, beq_eq_false_iff_ne.mpr h3,
      Bool.false_eq_true, if_false]
  refine ⟨hstep, ?_, rfl, ?_⟩
  · rw [runConn, hstep]
    rfl
  · rw [runConn]
    rfl

/-- Witness for C1 on the concrete unknown kind `"ping"` followed by a
valid `next_question` frame: the error reply is sent, the channel stays
open, and the question frame is still answered. -/
theorem c1_witness :
    msgKindKnown (some "ping") = false ∧
    (runConn [.parsed ⟨some "ping", none, none, none, none, none⟩,
        .parsed ⟨some "next_question", none, none, none, none, none⟩]
      ⟨some ["Q1"], [], 0, []⟩ ⟨["Q1"], 0⟩).2.2 =
      [.typeError "Unknown message type: ping", .questionMsg 0 "Q1"] := by
  constructor
  · decide
  · have h := (c1_unknown_kind_replies_malformed_closes
      ⟨some ["Q1"], [], 0, []⟩ ⟨["Q1"], 0⟩
      ⟨some "ping", none, none, none, none, none⟩
      [.parsed ⟨some "next_question", none, none, none, none, none⟩] []
      (by decide)).2.1
    rw [Prod.ext_iff, Prod.ext_iff] at h
    rw [h.2.2]
    decide

/-- C5 (confirmed): dispatching `store_user_response` with a `text`
argument longer than 1000 characters (in particular 1001) fails the
pydantic schema validation: the handler is not invoked and the state —
including the answer log — is unchanged, the channel stays open, and an
error reply is sent whose message names the invalid field `text`. -/
theorem c5_store_overlong_text_rejected (gs : GlobalState) (cs : ConnState)
    (cid : Option String) (t : String) (h : 1000 < t.length) :
    processFrame gs cs (.parsed ⟨some "function_call", cid,
        some "store_user_response", some (.fields [("text", t)]),
        none, none⟩) =
      ⟨gs, cs, some (.callError cid ("Invalid arguments for "
        ++ "store_user_response: text: "
        ++ "ensure this value has at most 1000 characters")), true⟩ := by
  have hl : ¬ t.length ≤ 1000 := by omega
  have hmax : runFunction gs "store_user_response" [("text", t)] =
      .error ⟨"text", "ensure this value has at most 1000 characters"⟩ := by
    show Except.map
        (fun t => ((store_user_response gs t).1,
          FnResult.stored (store_user_response gs t).2))
        (if t.length ≤ 1000 then Except.ok t
          else Except.error (⟨"text", "ensure this value has at most "
            ++ toString 1000 ++ " characters"⟩ : FieldErr)) =
      (Except.error ⟨"text", "ensure this value has at most 1000 characters"⟩ :
        Except FieldErr (GlobalState × FnResult))
    rw [if_neg hl]
    rfl
  simp [processFrame, funcCallStep, hmax, fieldErrText, knownFunctionNames]

/-- Witness for C5 with a concrete 1001-character `text`. -/
theorem c5_witness :
    1000 < (String.mk (List.replicate 1001 'a')).length ∧
    processFrame ⟨none, [], 0, []⟩ ⟨[], 0⟩ (.parsed ⟨some "function_call",
        some "call-1", some "store_user_response",
        some (.fields [("text", String.mk (List.replicate 1001 'a'))]),
        none, none⟩) =
      ⟨⟨none, [], 0, []⟩, ⟨[], 0⟩, some (.callError (some "call-1")
        ("Invalid arguments for " ++ "store_user_response: text: "
          ++ "ensure this value has at most 1000 characters")), true⟩ :=
  have hlen : (String.mk (List.replicate 1001 'a')).length = 1001 := by
    show (List.replicate 1001 'a').length = 1001
    rw [List.length_replicate]
  ⟨by omega, c5_store_overlong_text_rejected
    ⟨none, [], 0, []⟩ ⟨[], 0⟩ (some "call-1") _ (by omega)⟩

/-- C3 (confirmed): if the credential-mint (session-create) response is
2xx but its JSON lacks the nested `client_secret.value` field, the
negotiation relay fails — the internally raised missing-credential
`HTTPException(500, "No ephemeral key in response")` is caught by the
outer handler and surfaced as the endpoint's fixed 500 — and no
SDP-exchange call is performed: the upstream call trace is `[mintCall]`
alone. -/
theorem c3_missing_credential_no_sdp_call (up : Upstream) (offer : String)
    (h2 : is2xx up.mintResp.status = true) (hk : up.mintKey? = some none) :
    realtime_proxy up offer =
      (.httpError 500 realtimeGenericError, [.mintCall]) := by
  simp [realtime_proxy, proxyFlow, h2, hk]

/-- Witness for C3: a 200 mint response whose JSON has no credential
field yields the 500 failure with only the mint call issued. -/
theorem c3_witness :
    is2xx 200 = true ∧
    realtime_proxy ⟨⟨200, "session"⟩, some none, ⟨200, "answer"⟩⟩ "offer" =
      (.httpError 500 realtimeGenericError, [.mintCall]) :=
  ⟨by decide, c3_missing_credential_no_sdp_call
    ⟨⟨200, "session"⟩, some none, ⟨200, "answer"⟩⟩ "offer" (by decide) rfl⟩

/-- C6 (confirmed): for every negotiation request, on both relay
endpoints, a non-2xx credential-mint response is propagated with exactly
the upstream status and body (and no SDP call is made), and a non-2xx
SDP-exchange response is likewise propagated with exactly the upstream
status and body. -/
theorem c6_upstream_error_propagated (up : Upstream) (offer : String) :
    (is2xx up.mintResp.status = false →
      realtime_proxy up offer =
        (.httpError up.mintResp.status up.mintResp.text, [.mintCall]) ∧
      transcription_proxy up offer =
        (.httpError up.mintResp.status up.mintResp.text, [.mintCall])) ∧
    (∀ k, is2xx up.mintResp.status = true → up.mintKey? = some (some k) →
      (k == "") = false → is2xx up.sdpResp.status = false →
      realtime_proxy up offer =
        (.httpError up.sdpResp.status up.sdpResp.text,
          [.mintCall, .sdpCall]) ∧
      transcription_proxy up offer =
        (.httpError up.sdpResp.status up.sdpResp.text,
          [.mintCall, .sdpCall])) := by
  constructor
  · intro hm
    constructor <;>
      simp [realtime_proxy, transcription_proxy, proxyFlow, hm]
  · intro k hm hk hke hs
    constructor <;>
      simp [realtime_proxy, transcription_proxy, proxyFlow, hm, hk, hke, hs]

/-- Witness for C6: a 503 mint failure is echoed with status 503 and body
`"busy"`; a 404 SDP failure is echoed with status 404 and body `"nf"`. -/
theorem c6_witness :
    realtime_proxy ⟨⟨503, "busy"⟩, some (some "ek"), ⟨200, "a"⟩⟩ "o" =
      (.httpError 503 "busy", [.mintCall]) ∧
    transcription_proxy ⟨⟨200, "s"⟩, some (some "ek"), ⟨404, "nf"⟩⟩ "o" =
      (.httpError 404 "nf", [.mintCall, .sdpCall]) :=
  ⟨((c6_upstream_error_propagated
      ⟨⟨503, "busy"⟩, some (some "ek"), ⟨200, "a"⟩⟩ "o").1 (by decide)).1,
   ((c6_upstream_error_propagated
      ⟨⟨200, "s"⟩, some (some "ek"), ⟨404, "nf"⟩⟩ "o").2 "ek"
      (by decide) rfl (by decide) (by decide)).2⟩

/-- C8 (confirmed): on both relay endpoints, every negotiation request
issues the credential-mint call exactly once and the SDP-exchange call at
most once, the only possible call traces being `[mintCall]` and
`[mintCall, sdpCall]` (mint first, never more of either); whenever the
relay returns the SDP answer, the trace is exactly
`[mintCall, sdpCall]`. -/
theorem c8_one_mint_then_at_most_one_sdp (up : Upstream) (offer : String) :
    ((realtime_proxy up offer).2 = [.mintCall] ∨
      (realtime_proxy up offer).2 = [.mintCall, .sdpCall]) ∧
    (realtime_proxy up offer).2.count .mintCall = 1 ∧
    (realtime_proxy up offer).2.count .sdpCall ≤ 1 ∧
    (∀ b, (realtime_proxy up offer).1 = .answer b →
      (realtime_proxy up offer).2 = [.mintCall, .sdpCall]) ∧
    ((transcription_proxy up offer).2 = [.mintCall] ∨
      (transcription_proxy up offer).2 = [.mintCall, .sdpCall]) ∧
    (transcription_proxy up offer).2.count .mintCall = 1 ∧
    (transcription_proxy up offer).2.count .sdpCall ≤ 1 ∧
    (∀ b, (transcription_proxy up offer).1 = .answer b →
      (transcription_proxy up offer).2 = [.mintCall, .sdpCall]) := by
  have h1 := proxyFlow_calls realtimeGenericError up offer
  have h2 := proxyFlow_calls transcriptionGenericError up offer
  refine ⟨h1, ?_, ?_, fun b => proxyFlow_answer_calls _ up offer b,
    h2, ?_, ?_, fun b => proxyFlow_answer_calls _ up offer b⟩
  · show (proxyFlow realtimeGenericError up offer).2.count .mintCall = 1
    rcases h1 with h | h <;> rw [h] <;> decide
  · show (proxyFlow realtimeGenericError up offer).2.count .sdpCall ≤ 1
    rcases h1 with h | h <;> rw [h] <;> decide
  · show (proxyFlow transcriptionGenericError up offer).2.count .mintCall = 1
    rcases h2 with h | h <;> rw [h] <;> decide
  · show (proxyFlow transcriptionGenericError up offer).2.count .sdpCall ≤ 1
    rcases h2 with h | h <;> rw [h] <;> decide

/-- Witness for C8 on a fully successful negotiation: the trace is
exactly one mint call followed by one SDP call. -/
theorem c8_witness :
    (realtime_proxy ⟨⟨201, "s"⟩, some (some "ek"), ⟨200, "answer-sdp"⟩⟩
        "o").1 = .answer "answer-sdp" ∧
    (realtime_proxy ⟨⟨201, "s"⟩, some (some "ek"), ⟨200, "answer-sdp"⟩⟩
        "o").2 = [.mintCall, .sdpCall] :=
  ⟨by decide, (c8_one_mint_then_at_most_one_sdp
      ⟨⟨201, "s"⟩, some (some "ek"), ⟨200, "answer-sdp"⟩⟩ "o").2.2.2.1
    "answer-sdp" (by decide)⟩
